import Mathlib

/-!
Shallow embedding of `visbrain/visuals/BrainVisual.py` (class `BrainVisual`),
the GPU mesh visual of the visbrain repository: buffer management
(vertices / faces / normals / colors), hemisphere-based face filtering,
translucency and alpha handling, camera-to-light coupling and the shading
formula of the vertex / fragment shaders.

Scalars are modelled as rationals (the Python code uses floats; the spec asks
for the formulas "in intent, not necessarily in floating-point bits").  The
shader formula, which needs square roots, is modelled over the reals.
Arrays become lists; numpy fancy indexing that can raise `IndexError`
becomes an `Option`-returning lookup; a Python method that can raise returns
`MeshState × Option PyError`, the state component being the object state at
the moment the exception propagates (Python leaves already-executed
assignments in place).
-/

namespace BrainVisual

/-- A 3-component vector (a vertex, a normal, a light position...). -/
structure Vec3 where
  x : ℚ
  y : ℚ
  z : ℚ
deriving DecidableEq, Repr, Inhabited

/-- A 4-component vector (an RGBA color, a homogeneous point). -/
structure Vec4 where
  x : ℚ
  y : ℚ
  z : ℚ
  w : ℚ
deriving DecidableEq, Repr, Inhabited

/-- A triangular face: three indices into the vertex array.  `v0` is the
first vertex (`faces[:, 0]` in the source). -/
structure Face where
  v0 : ℕ
  v1 : ℕ
  v2 : ℕ
deriving DecidableEq, Repr, Inhabited

/-- The hemisphere modes accepted by the `hemisphere` setter
(the setter asserts the value is one of left, both, right). -/
inductive Hemi where
  | both
  | left
  | right
deriving DecidableEq, Repr, Inhabited

/-- Exceptions the embedded methods can raise. -/
inductive PyError where
  | indexError
  | valueError
  | attributeError
deriving DecidableEq, Repr, Inhabited

/-- A vispy transform, reduced to the one capability the mesh uses:
`map` from a point to a mapped point on homogeneous coordinates (the
vispy `arg_to_vec4` helper pads a 3-vector with `w = 1` and the result is a 4-vector). -/
structure Transform where
  tmap : Vec3 → Vec4

/-- The vispy `NullTransform`: returns the (padded) input unmodified. -/
def nullTransform : Transform :=
  ⟨fun v => ⟨v.x, v.y, v.z, 1⟩⟩

/-- A vispy camera, reduced to the one field `set_camera` reads:
its current transform. -/
structure Camera where
  transform : Transform

/-- Drop the last component of a mapped homogeneous point: the `[0:-1]`
slice applied to the 4-component result of `transform.map`. -/
def firstThree (v : Vec4) : Vec3 :=
  ⟨v.x, v.y, v.z⟩

/-- The state of a `BrainVisual` object: its Python attributes, the GPU
buffers (`gloo.VertexBuffer` / `gloo.IndexBuffer` contents) and the shader
uniforms it pushes.  `colFaces` is `Option` because `self._colFaces` is
never assigned anywhere in the class (its only assignment is in
commented-out code), so reading it raises `AttributeError`. -/
structure MeshState where
  camera : Option Camera
  camera_transform : Transform
  translucent : Bool
  alpha : ℚ
  hemisphere : Hemi
  vertices : List Vec3
  faces : List Face
  shapes_vert : ℕ
  shapes_faces : ℕ
  center : Vec3
  camratio : Vec3
  lr_index : List Bool
  colFaces : Option (List Vec4)
  vert_buffer : List Vec3
  index_buffer : List Face
  color_buffer : List Vec4
  normals_buffer : List Vec3
  u_alpha : ℚ
  u_light_position : Vec3
  light_position : Vec3
  light_color : Vec4
  light_intensity : Vec3
  coef_ambient : ℚ
  coef_specular : ℚ
  depth_test : Bool

/-- Mean of the x-coordinates: `vertices[:, 0].mean()`. -/
def xMean (vs : List Vec3) : ℚ :=
  (vs.map Vec3.x).sum / (vs.length : ℚ)

/-- Derived hemisphere flags: `vertices[:, 0] <= vertices[:, 0].mean()`,
one boolean per vertex ("belongs to the left hemisphere"). -/
def deriveLR (vs : List Vec3) : List Bool :=
  vs.map (fun v => decide (v.x ≤ xMean vs))

/-- Componentwise maximum `vertices.max(0)`; `none` on an empty array
(numpy raises `ValueError` there). -/
def vmax : List Vec3 → Option Vec3
  | [] => none
  | v :: rest =>
      some (rest.foldl (fun a b => ⟨max a.x b.x, max a.y b.y, max a.z b.z⟩) v)

/-- Componentwise minimum `vertices.min(0)`; `none` on an empty array. -/
def vmin : List Vec3 → Option Vec3
  | [] => none
  | v :: rest =>
      some (rest.foldl (fun a b => ⟨min a.x b.x, min a.y b.y, min a.z b.z⟩) v)

/-- The branch `if lr_index is None or len(lr_index) != vertices.shape[0]:
lr_index = vertices[:, 0] <= vertices[:, 0].mean()` of `set_data`. -/
def chooseLR (vs : List Vec3) (lr_arg : Option (List Bool)) : List Bool :=
  match lr_arg with
  | none => deriveLR vs
  | some l => if l.length = vs.length then l else deriveLR vs

/-- Numpy fancy indexing `lr_index[faces[:, 0]]`: looks every index up and
raises `IndexError` (here: `none`) as soon as one is out of range. -/
def fancyIndex (lr : List Bool) (idxs : List ℕ) : Option (List Bool) :=
  idxs.mapM (fun i => lr.get? i)

/-- Numpy boolean-mask row selection `faces[mask, :]`. -/
def maskSelect (fs : List Face) (mask : List Bool) : List Face :=
  (fs.zip mask).filterMap (fun p => if p.2 then some p.1 else none)

/-- The `np.ones((n, 4), dtype=np.float32)` default color array. -/
def onesColor (n : ℕ) : List Vec4 :=
  List.replicate n ⟨1, 1, 1, 1⟩

/-- The `hemisphere` property setter: recomputes the active face-index
buffer from the stored per-face flags `_lr_index` and records the mode. -/
def hemisphere_set (s : MeshState) (value : Hemi) : MeshState :=
  let index :=
    match value with
    | .both => s.faces
    | .left => maskSelect s.faces s.lr_index
    | .right => maskSelect s.faces (s.lr_index.map (fun b => !b))
  { s with index_buffer := index, hemisphere := value }

/-- The `set_data` method.  `convert_meshdata` is modelled from the spec:
the external mesh-loading collaborator passes precomputed
vertices / faces / normals through unchanged (this component "accepts
precomputed normals only").  Assignment order follows the source: vertex
and face attributes, shapes, then center / ratio (numpy `max` raises
`ValueError` on an empty array), then the hemisphere flags where
`lr_index[faces[:, 0]]` can raise `IndexError`, and only then the GPU
buffers and the hemisphere setter.  On an exception the state component
holds the assignments already executed. -/
def set_data (s : MeshState) (vertices : List Vec3) (faces : List Face)
    (normals : List Vec3) (hemisphere : Hemi)
    (lr_arg : Option (List Bool)) : MeshState × Option PyError :=
  let s1 := { s with
    vertices := vertices
    faces := faces
    shapes_vert := vertices.length
    shapes_faces := faces.length }
  match vmax vertices, vmin vertices with
  | some vM, some vm =>
    let s2 := { s1 with
      center := ⟨(vM.x + vm.x) / 2, (vM.y + vm.y) / 2, (vM.z + vm.z) / 2⟩
      camratio := ⟨vM.x - vm.x, vM.y - vm.y, vM.z - vm.z⟩ }
    let lr : List Bool := chooseLR vertices lr_arg
    match fancyIndex lr (faces.map Face.v0) with
    | none => (s2, some .indexError)
    | some lrFaces =>
      let s3 := { s2 with
        lr_index := lrFaces
        vert_buffer := vertices
        normals_buffer := normals
        color_buffer := onesColor vertices.length }
      (hemisphere_set s3 hemisphere, none)
  | _, _ => (s1, some .valueError)

/-- The three shapes of the `data` argument of `set_color`, plus the
silent fallback branch of the source for any other shape. -/
inductive ColorData where
  | noData
  | vec (d : List ℚ)
  | rgba (d : List Vec4)
  | other (d : List Vec4)

/-- The `set_color` method.  `color2vb` (external) is modelled by taking
the already-converted RGBA `color`; `array2colormap` (external colormap
utility, closed over its keyword arguments) is the function `cmap`.  The
`alpha` parameter is part of the signature but, as in the source, appears
nowhere in the body. -/
def set_color (s : MeshState) (data : ColorData) (color : Vec4) (alpha : ℚ)
    (cmap : List ℚ → List Vec4) : MeshState :=
  let col : List Vec4 :=
    match data with
    | .noData => List.replicate s.vertices.length color
    | .vec d => cmap d
    | .rgba d => d
    | .other d => d
  { s with color_buffer := col }

/-- The `set_alpha` method.  It reads `self._colFaces`, an attribute no
reachable code ever assigns (its only assignment sits in a commented-out
property), so the read raises `AttributeError` whenever `colFaces` is
`none`. -/
def set_alpha (s : MeshState) (alpha : ℚ) (index : Option (List ℕ)) :
    MeshState × Option PyError :=
  match s.colFaces with
  | none => (s, some .attributeError)
  | some cf =>
    let cf2 : List Vec4 :=
      match index with
      | none => cf.map (fun c => ⟨c.x, c.y, c.z, alpha⟩)
      | some idx =>
          cf.enum.map (fun p =>
            if p.1 ∈ idx then ⟨p.2.x, p.2.y, p.2.z, alpha⟩ else p.2)
    ({ s with colFaces := some cf2, color_buffer := cf2 }, none)

/-- The `set_camera` method: `if camera is not None:` store the camera and
its transform; with `None` the body is skipped entirely. -/
def set_camera (s : MeshState) (camera : Option Camera) : MeshState :=
  match camera with
  | some c => { s with camera := some c, camera_transform := c.transform }
  | none => s

/-- The `_prepare_draw` hook: pushes
`self._camera_transform.map(self._light_position)[0:-1]` as the
`u_light_position` uniform; nothing else on the object changes. -/
def prepare_draw (s : MeshState) : MeshState :=
  { s with
    u_light_position := firstThree (s.camera_transform.tmap s.light_position) }

/-- The `alpha` property setter:
`value = min(value, .1) if self._translucent else 1.`, stored and pushed
as the `u_alpha` uniform. -/
def alpha_set (s : MeshState) (value : ℚ) : MeshState :=
  let v := if s.translucent then min value (1/10) else 1
  { s with alpha := v, u_alpha := v }

/-- The `translucent` property setter: toggles the depth test through
`set_gl_state`, records the flag, then routes `0.1` (translucent) or
`1.0` (opaque) through the `alpha` setter. -/
def translucent_set (s : MeshState) (value : Bool) : MeshState :=
  let s1 :=
    if value then { s with depth_test := false }
    else { s with depth_test := true }
  let a : ℚ := if value then 1/10 else 1
  alpha_set { s1 with translucent := value } a

/-- The `light_position` property setter: pushes the uniform and stores
the world-space position. -/
def light_position_set (s : MeshState) (value : Vec3) : MeshState :=
  { s with u_light_position := value, light_position := value }

/-- The `light_color` property setter. -/
def light_color_set (s : MeshState) (value : Vec4) : MeshState :=
  { s with light_color := value }

/-- The `light_intensity` property setter. -/
def light_intensity_set (s : MeshState) (value : Vec3) : MeshState :=
  { s with light_intensity := value }

/-- The `coef_ambient` property setter. -/
def coef_ambient_set (s : MeshState) (value : ℚ) : MeshState :=
  { s with coef_ambient := value }

/-- The `coef_specular` property setter. -/
def coef_specular_set (s : MeshState) (value : ℚ) : MeshState :=
  { s with coef_specular := value }

/-- The attribute initializations at the top of `__init__` (before
`set_data` runs): no camera, `NullTransform`, `_translucent = True`,
`_alpha = alpha`, empty buffers, `u_alpha` pushed as the raw `alpha`
argument, and the `set_gl_state(..., depth_test=True, ...)` issued at the
end of `__init__`.  Fields `set_data` always overwrites hold zeros. -/
def emptyState (alpha : ℚ) : MeshState where
  camera := none
  camera_transform := nullTransform
  translucent := true
  alpha := alpha
  hemisphere := .both
  vertices := []
  faces := []
  shapes_vert := 0
  shapes_faces := 0
  center := ⟨0, 0, 0⟩
  camratio := ⟨0, 0, 0⟩
  lr_index := []
  colFaces := none
  vert_buffer := []
  index_buffer := []
  color_buffer := []
  normals_buffer := []
  u_alpha := alpha
  u_light_position := ⟨0, 0, 0⟩
  light_position := ⟨0, 0, 0⟩
  light_color := ⟨0, 0, 0, 0⟩
  light_intensity := ⟨0, 0, 0⟩
  coef_ambient := 0
  coef_specular := 0
  depth_test := true

/-- Construction of a `BrainVisual` with geometry supplied and every other
argument at its default (`hemisphere=both`, `lr_index=None`,
`light_position=[100.]*3`, `light_color=[1.]*4`, `light_intensity=[1.]*3`,
`coef_ambient=.05`, `coef_specular=.5`, `camera=None`), in the order
`__init__` runs the calls. -/
def mkBrainVisual (vertices : List Vec3) (faces : List Face)
    (normals : List Vec3) (alpha : ℚ) : MeshState :=
  let s1 := (set_data (emptyState alpha) vertices faces normals .both none).1
  let s2 := set_camera s1 none
  let s3 := light_color_set s2 ⟨1, 1, 1, 1⟩
  let s4 := light_position_set s3 ⟨100, 100, 100⟩
  let s5 := light_intensity_set s4 ⟨1, 1, 1⟩
  let s6 := coef_ambient_set s5 (1/20)
  coef_specular_set s6 (1/2)

/-- One public mutating operation on the mesh, with its arguments. -/
inductive Op where
  | data (vertices : List Vec3) (faces : List Face) (normals : List Vec3)
      (hemisphere : Hemi) (lr_arg : Option (List Bool))
  | color (d : ColorData) (c : Vec4) (alpha : ℚ) (cmap : List ℚ → List Vec4)
  | alphaChan (alpha : ℚ) (index : Option (List ℕ))
  | cam (camera : Option Camera)
  | hemi (value : Hemi)
  | transl (value : Bool)
  | alphaProp (value : ℚ)
  | lightPos (value : Vec3)
  | lightCol (value : Vec4)
  | lightInt (value : Vec3)
  | ambient (value : ℚ)
  | specular (value : ℚ)

/-- Apply one operation; for the fallible methods this is the object state
after the call, whether or not an exception propagated. -/
def step (s : MeshState) (op : Op) : MeshState :=
  match op with
  | .data v f n h l => (set_data s v f n h l).1
  | .color d c a cm => set_color s d c a cm
  | .alphaChan a i => (set_alpha s a i).1
  | .cam c => set_camera s c
  | .hemi v => hemisphere_set s v
  | .transl v => translucent_set s v
  | .alphaProp v => alpha_set s v
  | .lightPos v => light_position_set s v
  | .lightCol v => light_color_set s v
  | .lightInt v => light_intensity_set s v
  | .ambient v => coef_ambient_set s v
  | .specular v => coef_specular_set s v

/-- The translucency invariant the spec asserts: translucent means
stored and pushed alpha at most `0.1` with the depth test disabled, opaque
means alpha exactly `1` with the depth test enabled. -/
def transAlphaInv (s : MeshState) : Prop :=
  (s.translucent = true →
    s.alpha ≤ 1/10 ∧ s.u_alpha ≤ 1/10 ∧ s.depth_test = false) ∧
  (s.translucent = false →
    s.alpha = 1 ∧ s.u_alpha = 1 ∧ s.depth_test = true)

instance (s : MeshState) : Decidable (transAlphaInv s) := by
  unfold transAlphaInv; infer_instance

/-- The per-face left flag stored by `set_data`: the derived per-vertex
flag of the first vertex of the face. -/
def leftOf (vs : List Vec3) (f : Face) : Bool :=
  decide ((vs.getD f.v0 default).x ≤ xMean vs)

/-! Shading pipeline (`VERT_SHADER` / `FRAG_SHADER`), over the reals: GLSL
float math idealized as real arithmetic, as the spec directs ("bit-for-bit
in intent, not necessarily in floating-point bits"). -/

/-- A 3-component shader vector. -/
structure RVec3 where
  x : ℝ
  y : ℝ
  z : ℝ

/-- A 4-component shader vector. -/
structure RVec4 where
  x : ℝ
  y : ℝ
  z : ℝ
  w : ℝ

/-- GLSL `length`. -/
noncomputable def vecLength (v : RVec3) : ℝ :=
  Real.sqrt (v.x ^ 2 + v.y ^ 2 + v.z ^ 2)

/-- GLSL `dot` on vec3. -/
noncomputable def dot3 (a b : RVec3) : ℝ :=
  a.x * b.x + a.y * b.y + a.z * b.z

/-- The explicit clamp in the shader: `max(min(t, 1.0), 0.0)`. -/
noncomputable def clamp01 (t : ℝ) : ℝ :=
  max (min t 1) 0

/-- Vertex stage output `v_color = $a_color * $u_light_color`
(componentwise vec4 product). -/
noncomputable def vColor (a_color u_light_color : RVec4) : RVec4 :=
  ⟨a_color.x * u_light_color.x, a_color.y * u_light_color.y,
    a_color.z * u_light_color.z, a_color.w * u_light_color.w⟩

/-- Fragment stage `surfaceToLight = $u_light_position - v_position`. -/
noncomputable def surfaceToLight (u_light_position v_position : RVec3) : RVec3 :=
  ⟨u_light_position.x - v_position.x, u_light_position.y - v_position.y,
    u_light_position.z - v_position.z⟩

/-- Fragment stage brightness:
`dot(v_normal, surfaceToLight) / (length(surfaceToLight) * length(v_normal))`
clamped to `[0, 1]`. -/
noncomputable def shaderBrightness (v_normal toLight : RVec3) : ℝ :=
  clamp01 (dot3 v_normal toLight / (vecLength toLight * vecLength v_normal))

/-- Fragment stage
`diffuseLight = v_color.rgb * brightness * $u_light_intensity`
(componentwise). -/
noncomputable def diffuseLight (v_color : RVec4) (b : ℝ)
    (u_light_intensity : RVec3) : RVec3 :=
  ⟨v_color.x * b * u_light_intensity.x, v_color.y * b * u_light_intensity.y,
    v_color.z * b * u_light_intensity.z⟩

/-! Concrete example data used by counterexamples and witnesses. -/

/-- A camera whose transform is visibly different from `NullTransform`. -/
def camC0 : Camera :=
  ⟨⟨fun _ => ⟨5, 5, 5, 1⟩⟩⟩

/-- A small valid triangle mesh: three vertices, two faces. -/
def exVerts : List Vec3 :=
  [⟨0, 0, 0⟩, ⟨2, 0, 0⟩, ⟨0, 1, 0⟩]

/-- Faces over `exVerts`; every index is in range. -/
def exFaces : List Face :=
  [⟨0, 1, 2⟩, ⟨1, 2, 0⟩]

/-- Per-vertex normals for `exVerts`. -/
def exNormals : List Vec3 :=
  [⟨0, 0, 1⟩, ⟨0, 0, 1⟩, ⟨0, 0, 1⟩]

/-- Two vertices, used to exhibit a vertices / normals length mismatch. -/
def cexVerts : List Vec3 :=
  [⟨0, 0, 0⟩, ⟨2, 0, 0⟩]

/-- A face over `cexVerts` with all indices in range. -/
def cexFaces : List Face :=
  [⟨0, 1, 0⟩]

/-- One normal: shorter than `cexVerts` (length 1 vs. 2). -/
def cexNormalsShort : List Vec3 :=
  [⟨0, 0, 1⟩]

/-- A face whose first vertex index 5 is out of range for `cexVerts`. -/
def cexFacesOOB : List Face :=
  [⟨5, 0, 0⟩]

/-! Helper lemmas about the embedded operations. -/

theorem deriveLR_length (vs : List Vec3) :
    (deriveLR vs).length = vs.length := by
  simp [deriveLR]

theorem fancyIndex_all_lt {lr : List Bool} {idxs : List ℕ}
    (h : ∀ i ∈ idxs, i < lr.length) :
    fancyIndex lr idxs = some (idxs.map (fun i => lr.getD i false)) := by
  induction idxs with
  | nil => rfl
  | cons a as ih =>
    have ha : a < lr.length := h a (by simp)
    have has : ∀ i ∈ as, i < lr.length := fun i hi => h i (by simp [hi])
    have hget : lr.get? a = some (lr.getD a false) := by
      rw [List.getD_eq_getElem lr false ha, List.get?_eq_getElem?,
        List.getElem?_eq_getElem ha]
    unfold fancyIndex at ih ⊢
    rw [List.map_cons, List.mapM_cons, hget, ih has]
    rfl

theorem fancyIndex_oob {lr : List Bool} {idxs : List ℕ}
    (h : ∃ i ∈ idxs, lr.length ≤ i) :
    fancyIndex lr idxs = none := by
  induction idxs with
  | nil => simp at h
  | cons a as ih =>
    by_cases ha : lr.length ≤ a
    · have hget : lr.get? a = none := by
        rw [List.get?_eq_getElem?]
        exact List.getElem?_eq_none ha
      unfold fancyIndex
      rw [List.mapM_cons, hget]
      rfl
    · obtain ⟨i, hi, hile⟩ := h
      rcases List.mem_cons.mp hi with rfl | hias
      · exact absurd hile ha
      · have hrec := ih ⟨i, hias, hile⟩
        unfold fancyIndex at hrec ⊢
        rw [List.mapM_cons, hrec]
        cases hga : lr.get? a <;> rfl

theorem maskSelect_map (fs : List Face) (g : Face → Bool) :
    maskSelect fs (fs.map g) = fs.filter g := by
  induction fs with
  | nil => rfl
  | cons f fs ih =>
    by_cases hg : g f <;>
      simp [maskSelect, List.filter_cons, hg] at ih ⊢ <;>
      exact ih

theorem deriveLR_getD (vs : List Vec3) (i : ℕ) (h : i < vs.length) :
    (deriveLR vs).getD i false
      = decide ((vs.getD i default).x ≤ xMean vs) := by
  have h2 : i < (deriveLR vs).length := by rw [deriveLR_length]; exact h
  rw [List.getD_eq_getElem _ _ h2, List.getD_eq_getElem _ _ h]
  simp [deriveLR]

theorem lrFaces_eq (vs : List Vec3) (fs : List Face)
    (hf : ∀ f ∈ fs, f.v0 < vs.length) :
    (fs.map Face.v0).map (fun i => (deriveLR vs).getD i false)
      = fs.map (leftOf vs) := by
  rw [List.map_map]
  refine List.map_congr_left (fun f hfm => ?_)
  simp only [Function.comp_apply]
  rw [deriveLR_getD vs f.v0 (hf f hfm)]
  rfl

theorem chooseLR_derives (vs : List Vec3) (lr_arg : Option (List Bool))
    (hlr : lr_arg = none ∨ ∃ l, lr_arg = some l ∧ l.length ≠ vs.length) :
    chooseLR vs lr_arg = deriveLR vs := by
  rcases hlr with h | ⟨l, rfl, hl⟩
  · rw [h]; rfl
  · simp [chooseLR, hl]

theorem chooseLR_length (vs : List Vec3) (lr_arg : Option (List Bool)) :
    (chooseLR vs lr_arg).length = vs.length := by
  cases lr_arg with
  | none => exact deriveLR_length vs
  | some l =>
    by_cases h : l.length = vs.length <;> simp [chooseLR, h, deriveLR_length]

theorem hemisphere_set_index (s : MeshState) :
    (hemisphere_set s .both).index_buffer = s.faces ∧
    (hemisphere_set s .left).index_buffer = maskSelect s.faces s.lr_index ∧
    (hemisphere_set s .right).index_buffer
      = maskSelect s.faces (s.lr_index.map (fun b => !b)) :=
  ⟨rfl, rfl, rfl⟩

theorem hemisphere_set_frame (s : MeshState) (v : Hemi) :
    (hemisphere_set s v).faces = s.faces ∧
    (hemisphere_set s v).lr_index = s.lr_index :=
  ⟨rfl, rfl⟩

theorem set_data_success_proj (s : MeshState) (v : Vec3) (rest : List Vec3)
    (fs : List Face) (ns : List Vec3) (hm : Hemi) (lr_arg : Option (List Bool))
    (lrF : List Bool)
    (hfan : fancyIndex (chooseLR (v :: rest) lr_arg) (fs.map Face.v0)
      = some lrF) :
    (set_data s (v :: rest) fs ns hm lr_arg).2 = none ∧
    (set_data s (v :: rest) fs ns hm lr_arg).1.lr_index = lrF ∧
    (set_data s (v :: rest) fs ns hm lr_arg).1.faces = fs ∧
    (set_data s (v :: rest) fs ns hm lr_arg).1.vertices = v :: rest ∧
    (set_data s (v :: rest) fs ns hm lr_arg).1.hemisphere = hm ∧
    (set_data s (v :: rest) fs ns hm lr_arg).1.normals_buffer = ns := by
  simp [set_data, vmax, vmin, hfan, hemisphere_set]

theorem set_data_preserves (s : MeshState) (v : List Vec3) (f : List Face)
    (n : List Vec3) (hm : Hemi) (l : Option (List Bool)) :
    (set_data s v f n hm l).1.translucent = s.translucent ∧
    (set_data s v f n hm l).1.alpha = s.alpha ∧
    (set_data s v f n hm l).1.u_alpha = s.u_alpha ∧
    (set_data s v f n hm l).1.depth_test = s.depth_test ∧
    (set_data s v f n hm l).1.colFaces = s.colFaces ∧
    (set_data s v f n hm l).1.camera = s.camera ∧
    (set_data s v f n hm l).1.light_position = s.light_position := by
  cases hv : vmax v <;> cases hw : vmin v <;>
    cases hfi : fancyIndex (chooseLR v l) (f.map Face.v0) <;>
      simp [set_data, hv, hw, hfi, hemisphere_set]

theorem inv_translucent_set (s : MeshState) (v : Bool) :
    transAlphaInv (translucent_set s v) := by
  cases v <;> simp [transAlphaInv, translucent_set, alpha_set]

theorem inv_step (s : MeshState) (op : Op) (h : transAlphaInv s) :
    transAlphaInv (step s op) := by
  obtain ⟨h1, h2⟩ := h
  cases op with
  | data v f n hm l =>
    obtain ⟨p1, p2, p3, p4, _, _, _⟩ := set_data_preserves s v f n hm l
    constructor <;> intro ht <;> simp only [step] at ht ⊢ <;>
      rw [p1] at ht <;> rw [p2, p3, p4]
    · exact h1 ht
    · exact h2 ht
  | color d c a cm => exact ⟨h1, h2⟩
  | alphaChan a i =>
    cases hc : s.colFaces with
    | none =>
      constructor <;> intro ht <;>
        simp only [step, set_alpha, hc] at ht ⊢
      · exact h1 ht
      · exact h2 ht
    | some cf =>
      constructor <;> intro ht <;>
        simp only [step, set_alpha, hc] at ht ⊢
      · exact h1 ht
      · exact h2 ht
  | cam c => cases c <;> exact ⟨h1, h2⟩
  | hemi v => exact ⟨h1, h2⟩
  | transl v => exact inv_translucent_set s v
  | alphaProp v =>
    constructor <;> intro ht
    · have hts : s.translucent = true := ht
      refine ⟨?_, ?_, ?_⟩
      · show (if s.translucent = true then min v (1/10) else (1:ℚ)) ≤ 1/10
        simp [hts]
      · show (if s.translucent = true then min v (1/10) else (1:ℚ)) ≤ 1/10
        simp [hts]
      · exact (h1 hts).2.2
    · have hts : s.translucent = false := ht
      refine ⟨?_, ?_, ?_⟩
      · show (if s.translucent = true then min v (1/10) else (1:ℚ)) = 1
        simp [hts]
      · show (if s.translucent = true then min v (1/10) else (1:ℚ)) = 1
        simp [hts]
      · exact (h2 hts).2.2
  | lightPos v => exact ⟨h1, h2⟩
  | lightCol v => exact ⟨h1, h2⟩
  | lightInt v => exact ⟨h1, h2⟩
  | ambient v => exact ⟨h1, h2⟩
  | specular v => exact ⟨h1, h2⟩

/-! Claim theorems. -/

/-- C1: setting the `alpha` property while `translucent` is true stores
and pushes `min(requested, 0.1)`, and while `translucent` is false stores
and pushes exactly `1.0`, regardless of the requested value. -/
theorem C1_alpha_clamp (s : MeshState) (value : ℚ) :
    (s.translucent = true →
      (alpha_set s value).alpha = min value (1/10) ∧
      (alpha_set s value).u_alpha = min value (1/10)) ∧
    (s.translucent = false →
      (alpha_set s value).alpha = 1 ∧
      (alpha_set s value).u_alpha = 1) := by
  constructor <;> intro h <;> simp [alpha_set, h]

/-- Witness for C1 at the example values of the spec: requesting `0.9` while
translucent yields `min(0.9, 0.1)`, requesting `0.2` while opaque
yields `1`. -/
theorem C1_alpha_clamp_witness :
    ((translucent_set (emptyState 1) true).translucent = true ∧
      (alpha_set (translucent_set (emptyState 1) true) (9/10)).alpha
        = min (9/10) (1/10)) ∧
    ((translucent_set (emptyState 1) false).translucent = false ∧
      (alpha_set (translucent_set (emptyState 1) false) (2/10)).alpha = 1) :=
  ⟨⟨rfl, ((C1_alpha_clamp (translucent_set (emptyState 1) true) (9/10)).1
      rfl).1⟩,
    ⟨rfl, ((C1_alpha_clamp (translucent_set (emptyState 1) false) (2/10)).2
      rfl).1⟩⟩

/-- C2: after `set_data` with hemisphere flags omitted or of mismatched
length, a vertex is flagged left exactly when its x-coordinate is at most
the mean x-coordinate; the `left` view is exactly the faces whose first
vertex is flagged left, `right` is the exact complement, `both` is all
faces, and switching left, then right, then both restores the full face
set. -/
theorem C2_hemisphere_views (s : MeshState) (vs : List Vec3) (fs : List Face)
    (ns : List Vec3) (hm : Hemi) (lr_arg : Option (List Bool))
    (hne : vs ≠ [])
    (hlr : lr_arg = none ∨ ∃ l, lr_arg = some l ∧ l.length ≠ vs.length)
    (hf : ∀ f ∈ fs, f.v0 < vs.length) :
    (set_data s vs fs ns hm lr_arg).2 = none ∧
    (∀ i, i < vs.length →
      ((deriveLR vs).getD i false = true ↔
        (vs.getD i default).x ≤ xMean vs)) ∧
    (set_data s vs fs ns hm lr_arg).1.lr_index = fs.map (leftOf vs) ∧
    (hemisphere_set (set_data s vs fs ns hm lr_arg).1 .left).index_buffer
      = fs.filter (leftOf vs) ∧
    (hemisphere_set (set_data s vs fs ns hm lr_arg).1 .right).index_buffer
      = fs.filter (fun f => !(leftOf vs f)) ∧
    (hemisphere_set (set_data s vs fs ns hm lr_arg).1 .both).index_buffer
      = fs ∧
    (hemisphere_set (hemisphere_set (hemisphere_set
        (set_data s vs fs ns hm lr_arg).1 .left) .right) .both).index_buffer
      = fs := by
  obtain ⟨v, rest, rfl⟩ : ∃ v rest, vs = v :: rest := by
    cases vs with
    | nil => exact absurd rfl hne
    | cons v rest => exact ⟨v, rest, rfl⟩
  have hch := chooseLR_derives _ lr_arg hlr
  have hlen : ∀ i ∈ fs.map Face.v0, i < (deriveLR (v :: rest)).length := by
    intro i hi
    rw [deriveLR_length]
    obtain ⟨f, hfm, rfl⟩ := List.mem_map.mp hi
    exact hf f hfm
  have hfan : fancyIndex (chooseLR (v :: rest) lr_arg) (fs.map Face.v0)
      = some (fs.map (leftOf (v :: rest))) := by
    rw [hch, fancyIndex_all_lt hlen, lrFaces_eq _ _ hf]
  obtain ⟨h2, hlrx, hfaces, _, _, _⟩ :=
    set_data_success_proj s v rest fs ns hm lr_arg _ hfan
  refine ⟨h2, ?_, hlrx, ?_, ?_, ?_, ?_⟩
  · intro i hi
    rw [deriveLR_getD _ _ hi]
    exact decide_eq_true_iff
  · rw [(hemisphere_set_index _).2.1, hfaces, hlrx, maskSelect_map]
  · rw [(hemisphere_set_index _).2.2, hfaces, hlrx, List.map_map]
    exact maskSelect_map fs fun f => !(leftOf (v :: rest) f)
  · rw [(hemisphere_set_index _).1, hfaces]
  · rw [(hemisphere_set_index _).1, (hemisphere_set_frame _ _).1,
      (hemisphere_set_frame _ _).1, hfaces]

/-- Witness for C2 on a concrete three-vertex, two-face mesh with flags
omitted. -/
theorem C2_hemisphere_views_witness :
    exVerts ≠ [] ∧
    (hemisphere_set (set_data (emptyState 1) exVerts exFaces exNormals
        .both none).1 .left).index_buffer = exFaces.filter (leftOf exVerts) :=
  ⟨by decide,
    (C2_hemisphere_views (emptyState 1) exVerts exFaces exNormals .both none
      (by decide) (Or.inl rfl) (by decide)).2.2.2.1⟩

/-- C3 counterexample: `set_data` applied with two vertices but a single
normal (mismatched lengths) raises nothing, so the claimed
`DimensionMismatch` failure does not exist. -/
theorem C3_no_dimension_check_counterexample :
    (set_data (emptyState 1) cexVerts cexFaces cexNormalsShort
        .both none).2 = none := by
  have hlen : ∀ i ∈ cexFaces.map Face.v0,
      i < (chooseLR cexVerts none).length := by
    rw [chooseLR_length]
    decide
  have h : cexVerts = Vec3.mk 0 0 0 :: [Vec3.mk 2 0 0] := rfl
  rw [h] at hlen ⊢
  exact (set_data_success_proj (emptyState 1) _ _ cexFaces cexNormalsShort
    .both none _ (fancyIndex_all_lt hlen)).1

/-- C3 amended: `set_data` performs no vertices / normals length check;
when the first vertex index of some face is at least the vertex count it fails
with `IndexError`, but the failed call has already replaced the vertex and
face attributes (plus shapes) — only the hemisphere flags, the GPU
buffers and the hemisphere mode keep their prior values (a partial
update, not all-or-nothing). -/
theorem C3_set_data_oob_not_atomic (s : MeshState) (v : Vec3)
    (rest : List Vec3) (fs : List Face) (ns : List Vec3) (hm : Hemi)
    (lr_arg : Option (List Bool))
    (hoob : ∃ f ∈ fs, (v :: rest).length ≤ f.v0) :
    (set_data s (v :: rest) fs ns hm lr_arg).2 = some .indexError ∧
    (set_data s (v :: rest) fs ns hm lr_arg).1.vertices = v :: rest ∧
    (set_data s (v :: rest) fs ns hm lr_arg).1.faces = fs ∧
    (set_data s (v :: rest) fs ns hm lr_arg).1.shapes_vert
      = (v :: rest).length ∧
    (set_data s (v :: rest) fs ns hm lr_arg).1.lr_index = s.lr_index ∧
    (set_data s (v :: rest) fs ns hm lr_arg).1.vert_buffer = s.vert_buffer ∧
    (set_data s (v :: rest) fs ns hm lr_arg).1.normals_buffer
      = s.normals_buffer ∧
    (set_data s (v :: rest) fs ns hm lr_arg).1.color_buffer
      = s.color_buffer ∧
    (set_data s (v :: rest) fs ns hm lr_arg).1.index_buffer
      = s.index_buffer ∧
    (set_data s (v :: rest) fs ns hm lr_arg).1.hemisphere = s.hemisphere := by
  have hfan : fancyIndex (chooseLR (v :: rest) lr_arg) (fs.map Face.v0)
      = none := by
    refine fancyIndex_oob ?_
    obtain ⟨f, hfm, hle⟩ := hoob
    refine ⟨f.v0, List.mem_map_of_mem _ hfm, ?_⟩
    rw [chooseLR_length]
    exact hle
  simp [set_data, vmax, vmin, hfan]

/-- Witness for C3 (amended) at a concrete out-of-range face: the call
fails with `IndexError`, yet the vertex attribute was already replaced
while the color buffer kept its previous value. -/
theorem C3_set_data_oob_not_atomic_witness :
    (∃ f ∈ cexFacesOOB, cexVerts.length ≤ f.v0) ∧
    (set_data (emptyState 1) cexVerts cexFacesOOB cexNormalsShort
        .both none).2 = some .indexError ∧
    (set_data (emptyState 1) cexVerts cexFacesOOB cexNormalsShort
        .both none).1.vertices = cexVerts ∧
    (set_data (emptyState 1) cexVerts cexFacesOOB cexNormalsShort
        .both none).1.color_buffer = (emptyState 1).color_buffer := by
  have h := C3_set_data_oob_not_atomic (emptyState 1) (Vec3.mk 0 0 0)
    [Vec3.mk 2 0 0] cexFacesOOB cexNormalsShort .both none (by decide)
  exact ⟨by decide, h.1, h.2.1, h.2.2.2.2.2.2.2.1⟩

/-- C4 (code bug): `set_alpha` always raises `AttributeError`, against the
claim that it overwrites the alpha channel and succeeds — `_colFaces` is
never initialized anywhere in the class (its only assignment is commented
out), no public operation creates it, and construction leaves it absent. -/
theorem C4_set_alpha_always_raises (s : MeshState) (a : ℚ)
    (i : Option (List ℕ)) (h : s.colFaces = none) :
    set_alpha s a i = (s, some .attributeError) ∧
    (∀ op : Op, (step s op).colFaces = none) ∧
    (∀ vs fs ns al, (mkBrainVisual vs fs ns al).colFaces = none) := by
  refine ⟨by simp [set_alpha, h], ?_, ?_⟩
  · intro op
    cases op with
    | data v f n hm l => rw [show (step s (Op.data v f n hm l)).colFaces
        = (set_data s v f n hm l).1.colFaces from rfl,
        (set_data_preserves s v f n hm l).2.2.2.2.1, h]
    | color d c al cm => exact h
    | alphaChan al idx => simp [step, set_alpha, h]
    | cam c => cases c <;> exact h
    | hemi v => exact h
    | transl v => cases v <;> exact h
    | alphaProp v => exact h
    | lightPos v => exact h
    | lightCol v => exact h
    | lightInt v => exact h
    | ambient v => exact h
    | specular v => exact h
  · intro vs fs ns al
    simp only [mkBrainVisual, coef_specular_set, coef_ambient_set,
      light_intensity_set, light_position_set, light_color_set, set_camera]
    rw [(set_data_preserves (emptyState al) vs fs ns .both none).2.2.2.2.1]
    rfl

/-- Witness for C4: on a freshly initialized state, `set_alpha 0.5`
returns `AttributeError` and changes nothing. -/
theorem C4_set_alpha_always_raises_witness :
    (emptyState 1).colFaces = none ∧
    set_alpha (emptyState 1) (1/2) none
      = (emptyState 1, some .attributeError) :=
  ⟨rfl, (C4_set_alpha_always_raises (emptyState 1) (1/2) none rfl).1⟩

/-- C5: the prepare-draw hook pushes the bound camera transform applied to
the stored world-space light position, truncated to its first three
components; with the never-bound `NullTransform` the pushed value is the
raw light position; the computation is idempotent, and neither
preparation nor camera rebinding modifies the stored world-space light
position. -/
theorem C5_prepare_draw_light (s : MeshState) :
    (prepare_draw s).u_light_position
      = firstThree (s.camera_transform.tmap s.light_position) ∧
    (prepare_draw s).light_position = s.light_position ∧
    (s.camera_transform = nullTransform →
      (prepare_draw s).u_light_position = s.light_position) ∧
    (prepare_draw (prepare_draw s)).u_light_position
      = (prepare_draw s).u_light_position ∧
    (∀ c : Option Camera, (set_camera s c).light_position
      = s.light_position) := by
  refine ⟨rfl, rfl, ?_, rfl, ?_⟩
  · intro h
    rw [show (prepare_draw s).u_light_position
      = firstThree (s.camera_transform.tmap s.light_position) from rfl, h]
    rfl
  · intro c
    cases c <;> rfl

/-- Witness for C5: a freshly initialized state has the null transform,
so the pushed light position equals the stored one. -/
theorem C5_prepare_draw_light_witness :
    (emptyState 1).camera_transform = nullTransform ∧
    (prepare_draw (emptyState 1)).u_light_position
      = (emptyState 1).light_position :=
  ⟨rfl, (C5_prepare_draw_light (emptyState 1)).2.2.1 rfl⟩

/-- C6 counterexample: after binding a camera, `set_camera None` does not
clear the stored reference — the camera field still holds the camera. -/
theorem C6_set_camera_none_counterexample :
    (set_camera (set_camera (emptyState 1) (some camC0)) none).camera
      ≠ none := by
  simp [set_camera]

/-- C6 amended: `set_camera` with a camera stores the reference and its
transform; with `None` it is a no-op that keeps the previous reference
(it does not clear it); no `set_camera` call touches geometry. -/
theorem C6_set_camera_behavior (s : MeshState) (c : Camera) :
    (set_camera s (some c)).camera = some c ∧
    (set_camera s (some c)).camera_transform = c.transform ∧
    set_camera s none = s ∧
    (∀ co : Option Camera,
      (set_camera s co).vertices = s.vertices ∧
      (set_camera s co).faces = s.faces ∧
      (set_camera s co).normals_buffer = s.normals_buffer ∧
      (set_camera s co).color_buffer = s.color_buffer ∧
      (set_camera s co).vert_buffer = s.vert_buffer ∧
      (set_camera s co).index_buffer = s.index_buffer) := by
  refine ⟨rfl, rfl, rfl, fun co => ?_⟩
  cases co <;> exact ⟨rfl, rfl, rfl, rfl, rfl, rfl⟩

/-- C7 counterexample: the state immediately after construction with the
default arguments (`translucent=True`, `alpha=1.0`) violates the claimed
invariant: it is translucent, yet its alpha is `1.0` and the depth test
is enabled. -/
theorem C7_init_violates_invariant :
    ¬ transAlphaInv (mkBrainVisual exVerts exFaces exNormals 1) := by
  intro h
  have ht : (mkBrainVisual exVerts exFaces exNormals 1).translucent
      = true := rfl
  have ha := (h.1 ht).1
  have hx : (mkBrainVisual exVerts exFaces exNormals 1).alpha = 1 := rfl
  rw [hx] at ha
  norm_num at ha

/-- C7 amended: the invariant (translucent implies stored and pushed
alpha at most 0.1 with depth test off; opaque implies alpha exactly 1
with depth test on) holds after every `translucent` setter call and is
preserved by every public operation — but, per the counterexample, not in
the freshly constructed default state. -/
theorem C7_invariant_after_translucent (s : MeshState) :
    (∀ v : Bool, transAlphaInv (translucent_set s v)) ∧
    (∀ op : Op, transAlphaInv s → transAlphaInv (step s op)) :=
  ⟨fun v => inv_translucent_set s v, fun op h => inv_step s op h⟩

/-- Witness for C7 (amended): the invariant holds after switching
translucency on, and is kept by a subsequent alpha request of 0.9. -/
theorem C7_invariant_after_translucent_witness :
    transAlphaInv (translucent_set (emptyState 1) true) ∧
    transAlphaInv (step (translucent_set (emptyState 1) true)
      (Op.alphaProp (9/10))) := by
  have h0 : transAlphaInv (translucent_set (emptyState 1) true) :=
    (C7_invariant_after_translucent (emptyState 1)).1 true
  exact ⟨h0, (C7_invariant_after_translucent _).2 (Op.alphaProp (9/10)) h0⟩

/-- C8: with normal (0,0,1) and the surface-to-light vector a positive
multiple of the normal, the shader brightness is exactly 1 and the
diffuse term equals `v_color.rgb * lightIntensity` componentwise, where
the vertex stage computed `v_color = vertexColor * lightColor`; with the
default light color (1,1,1,1) this is `vertexColor.rgb * lightIntensity`. -/
theorem C8_shader_straight_on (k : ℝ) (hk : 0 < k)
    (vcol lcol : RVec4) (intensity : RVec3) :
    shaderBrightness ⟨0, 0, 1⟩ ⟨0, 0, k⟩ = 1 ∧
    diffuseLight (vColor vcol lcol)
        (shaderBrightness ⟨0, 0, 1⟩ ⟨0, 0, k⟩) intensity
      = ⟨vcol.x * lcol.x * intensity.x, vcol.y * lcol.y * intensity.y,
          vcol.z * lcol.z * intensity.z⟩ ∧
    (lcol = ⟨1, 1, 1, 1⟩ →
      diffuseLight (vColor vcol lcol)
          (shaderBrightness ⟨0, 0, 1⟩ ⟨0, 0, k⟩) intensity
        = ⟨vcol.x * intensity.x, vcol.y * intensity.y,
            vcol.z * intensity.z⟩) := by
  have hlen1 : vecLength ⟨0, 0, 1⟩ = 1 := by
    simp [vecLength]
  have hlenk : vecLength ⟨0, 0, k⟩ = k := by
    simp only [vecLength]
    rw [show (0:ℝ) ^ 2 + 0 ^ 2 + k ^ 2 = k ^ 2 by ring]
    exact Real.sqrt_sq hk.le
  have hb : shaderBrightness ⟨0, 0, 1⟩ ⟨0, 0, k⟩ = 1 := by
    simp only [shaderBrightness, dot3, hlen1, hlenk, clamp01]
    rw [show (0:ℝ) * 0 + 0 * 0 + 1 * k = k by ring, mul_one,
      div_self hk.ne.symm]
    norm_num
  refine ⟨hb, ?_, ?_⟩
  · rw [hb]
    simp [diffuseLight, vColor]
  · intro hl
    rw [hb, hl]
    simp [diffuseLight, vColor]

/-- Witness for C8 at distance 2 along the normal. -/
theorem C8_shader_straight_on_witness :
    (0:ℝ) < 2 ∧ shaderBrightness ⟨0, 0, 1⟩ ⟨0, 0, 2⟩ = 1 :=
  ⟨zero_lt_two,
    (C8_shader_straight_on 2 zero_lt_two ⟨1, 1, 1, 1⟩ ⟨1, 1, 1, 1⟩
      ⟨1, 1, 1⟩).1⟩

/-- C9: switching hemisphere recomputes only the active face-index view:
vertex, face, normal and per-vertex color data (attributes and buffers)
are untouched, and the new mode is recorded. -/
theorem C9_hemisphere_switch_frame (s : MeshState) (v : Hemi) :
    (hemisphere_set s v).vertices = s.vertices ∧
    (hemisphere_set s v).faces = s.faces ∧
    (hemisphere_set s v).vert_buffer = s.vert_buffer ∧
    (hemisphere_set s v).normals_buffer = s.normals_buffer ∧
    (hemisphere_set s v).color_buffer = s.color_buffer ∧
    (hemisphere_set s v).lr_index = s.lr_index ∧
    (hemisphere_set s v).hemisphere = v :=
  ⟨rfl, rfl, rfl, rfl, rfl, rfl, rfl⟩

/-- C10: `set_color` never reads its `alpha` parameter: any two alpha
values give identical resulting states (hence identical color buffers) in
every data mode. -/
theorem C10_set_color_alpha_independent (s : MeshState) (data : ColorData)
    (color : Vec4) (cmap : List ℚ → List Vec4) (a1 a2 : ℚ) :
    set_color s data color a1 cmap = set_color s data color a2 cmap := rfl

end BrainVisual
